import Mathlib

/-!
Shallow embedding of `src/app.py` (an auto-pilot two-agent chatting app)
and proofs of the specified properties of its conversation-turn engine,
provider adapter and model directory.

Conventions of the embedding:
* Python wall-clock instants (`datetime.now()`, `total_seconds()`) are
  modelled as rationals (`ℚ`); formatted timestamp strings are passed in
  as opaque `String` parameters.
* The Streamlit session state fields relevant to the claims
  (`messages`, `running`, `start_time`, `finish_time`) form `SessionState`.
* `st.rerun()` ends a script run; each embedded transition function
  returns the post-state of the session (and the list of user-visible
  error/warning texts emitted by `st.error` / `st.warning`).
-/

/-- A chat message as stored in `st.session_state.messages`
(`{"role": ..., "content": ..., "timestamp": ...}`, app.py 299-305, 382-388). -/
structure Message where
  role : String
  content : String
  timestamp : String
deriving Repr, DecidableEq

/-- The session-state fields of `main` that the turn engine reads and writes. -/
structure SessionState where
  messages : List Message
  running : Bool
  start_time : ℚ
  finish_time : Option ℚ
deriving DecidableEq

/-- app.py 64-67 (`generate_response`): the outbound message list.  Every
history entry keeps its content, the last entry's role becomes `"user"`,
every other entry's role becomes `"assistant"`. -/
def model_messages (messages : List Message) : List (String × String) :=
  messages.enum.map (fun p =>
    ((if p.1 = messages.length - 1 then "user" else "assistant"), p.2.content))

/-- app.py 296-306: the `Start` button handler.  `topic` is the text input,
`now` is `datetime.now()` and `ts` its formatted `"%H:%M:%S"` string. -/
def startRun (_s : SessionState) (topic : String) (now : ℚ) (ts : String) :
    SessionState :=
  { running := true
    start_time := now
    finish_time := none
    messages := [{ role := "Agent 1", content := topic, timestamp := ts }] }

/-- app.py 309-312: the `Stop` button handler. -/
def stopRun (s : SessionState) (now : ℚ) : SessionState :=
  { s with running := false, finish_time := some now }

/-- app.py 315-319: the turn-limit condition
`turn_limit > 0 and (datetime.now() - start_time).total_seconds() > turn_limit * 60`. -/
def timeout_fired (turn_limit : ℕ) (start_time now : ℚ) : Prop :=
  0 < turn_limit ∧ (turn_limit : ℚ) * 60 < now - start_time

instance (turn_limit : ℕ) (start_time now : ℚ) :
    Decidable (timeout_fired turn_limit start_time now) :=
  inferInstanceAs (Decidable (_ ∧ _))

/-- app.py 326-331: the active agent's display name,
`"Agent 2"` when `len(messages) % 2 != 0`, else `"Agent 1"`. -/
def current_agent_name (messages : List Message) : String :=
  if messages.length % 2 ≠ 0 then "Agent 2" else "Agent 1"

/-- app.py 326-331: the active agent's model. -/
def current_agent_model (messages : List Message) (agent1 agent2 : String) :
    String :=
  if messages.length % 2 ≠ 0 then agent2 else agent1

/-- Model of Python's `str.strip()`: removes leading and trailing
whitespace characters. -/
def py_strip (s : String) : String :=
  ⟨((s.data.dropWhile Char.isWhitespace).reverse.dropWhile Char.isWhitespace).reverse⟩

/-- app.py 373-374: the error text shown on an empty accumulated response. -/
def empty_response_error (agent model : String) : String :=
  agent ++ " (" ++ model ++ ") failed to generate a response. The conversation has been stopped."

/-- When the engine observes the external stop request during a turn
(`st.session_state.running` reads `False`): never, at the check before the
call is issued (app.py 341), or at the check that follows fragment `k`
(app.py 363-365, 0-based). -/
inductive Stop where
  | no : Stop
  | before : Stop
  | after (k : ℕ) : Stop
deriving DecidableEq

/-- app.py 314-389: one pass of the `if st.session_state.running:` body.
`frags` are the fragments the provider stream would yield, `stop` says when
the external stop request is observed, `now` is the wall clock at the
turn-limit check, `ts` the timestamp string of a successful append.
Returns the post-state and the emitted `st.warning`/`st.error` texts. -/
def runTurn (s : SessionState) (turn_limit : ℕ) (now : ℚ) (ts : String)
    (agent1 agent2 : String) (frags : List String) (stop : Stop) :
    SessionState × List String :=
  if timeout_fired turn_limit s.start_time now then
    ({ s with running := false, finish_time := some now },
     ["Time limit reached. Conversation stopped."])
  else
    let agent := current_agent_name s.messages
    let model := current_agent_model s.messages agent1 agent2
    match stop with
    | .before =>
      -- app.py 341-342: stop observed before the call; rerun, nothing appended.
      ({ s with running := false }, [])
    | .after k =>
      -- app.py 361-365: fragments 0..k accumulated, then the loop breaks;
      -- app.py 370 sees running == False, so the partial response is dropped.
      let _partial := String.join (frags.take (k + 1))
      ({ s with running := false }, [])
    | .no =>
      let full_response := String.join frags
      if full_response = "" ∨ py_strip full_response = "" then
        -- app.py 370-380: empty/whitespace response halts the run.
        ({ s with running := false }, [empty_response_error agent model])
      else
        -- app.py 381-389: append the message for the current agent.
        ({ s with messages :=
            s.messages ++ [{ role := agent, content := full_response, timestamp := ts }] },
         [])

/-- The session states reachable in a run seeded by `Start`: the seed itself,
a `Stop` press, and any engine turn taken while the run flag is set
(restarting is `start` applied to a reachable state). -/
inductive Reachable : SessionState → Prop where
  | start (s : SessionState) (topic : String) (now : ℚ) (ts : String) :
      Reachable (startRun s topic now ts)
  | stop (s : SessionState) (now : ℚ) :
      Reachable s → Reachable (stopRun s now)
  | turn (s : SessionState) (turn_limit : ℕ) (now : ℚ) (ts : String)
      (agent1 agent2 : String) (frags : List String) (stp : Stop) :
      Reachable s → s.running = true →
      Reachable (runTurn s turn_limit now ts agent1 agent2 frags stp).1

/-- Strict alternation of speakers: entry `i` is `"Agent 1"` exactly on even `i`. -/
def Alternating (messages : List Message) : Prop :=
  ∀ i (h : i < messages.length),
    (messages.get ⟨i, h⟩).role = if i % 2 = 0 then "Agent 1" else "Agent 2"

/-- A JSON value, as Python's `json` module would hand it back
(`dict` field order kept as a list; numbers restricted to integers,
which is all the modelled endpoints carry). -/
inductive Json where
  | null : Json
  | bool (b : Bool) : Json
  | num (n : ℤ) : Json
  | str (s : String) : Json
  | arr (items : List Json) : Json
  | obj (fields : List (String × Json)) : Json
deriving Repr, Inhabited

/-- First binding of a key in a Python `dict` (keys are unique there). -/
def lookupField (fields : List (String × Json)) (k : String) : Option Json :=
  match fields with
  | [] => none
  | (k1, v) :: rest => if k1 = k then some v else lookupField rest k

/-- Python truthiness of a decoded JSON value. -/
def Json.truthy : Json → Bool
  | .null => false
  | .bool b => b
  | .num n => n != 0
  | .str s => s != ""
  | .arr items => !items.isEmpty
  | .obj fields => !fields.isEmpty

/-- The Python exceptions the embedded code can raise past its boundary. -/
inductive PyErr where
  | keyError (k : String) : PyErr
  | indexError : PyErr
  | typeError : PyErr
  | attributeError : PyErr
deriving Repr, DecidableEq

/-- Python `value[key]` with a string key: `KeyError` on a dict missing the
key, `TypeError` on anything that is not a dict. -/
def pySubscript (j : Json) (k : String) : Except PyErr Json :=
  match j with
  | .obj fields =>
    match lookupField fields k with
    | some v => .ok v
    | none => .error (.keyError k)
  | _ => .error .typeError

/-- Python iteration `for m in value`: lists yield their items, dicts their
keys, strings their characters; other values raise `TypeError`. -/
def pyIter : Json → Except PyErr (List Json)
  | .arr items => .ok items
  | .obj fields => .ok (fields.map (fun f => .str f.1))
  | .str s => .ok (s.data.map (fun c => .str (String.singleton c)))
  | _ => .error .typeError

/-- Outcome of the bounded-timeout `requests.get` issued by `get_models`:
`failure` is any `requests.exceptions.RequestException` (connection refused,
timeout, or a non-2xx status turned into `HTTPError` by
`raise_for_status`); `success body` is a 2xx reply whose JSON body decoded
to `body`. -/
inductive Transport where
  | failure : Transport
  | success (body : Json) : Transport

/-- app.py 41-46, per entry of `data["data"]`: the value contributed by
`[m.get("id") for m in data["data"] if isinstance(m, dict) and m.get("id")]`,
`none` when the entry is filtered out. -/
def data_entry_id (m : Json) : Option Json :=
  match m with
  | .obj mf =>
    match lookupField mf "id" with
    | some v => if v.truthy then some v else none
    | none => none
  | _ => none

/-- app.py 48-53, per entry of a bare-list body: the value contributed by
`m.get("id") or m.get("name")` under the comprehension's truthiness filter
`isinstance(m, dict) and (m.get("id") or m.get("name"))` — the first truthy
of the two lookups, `none` when the entry is filtered out. -/
def id_or_name (m : Json) : Option Json :=
  match m with
  | .obj mf =>
    match lookupField mf "id" with
    | some v =>
      if v.truthy then some v
      else
        match lookupField mf "name" with
        | some w => if w.truthy then some w else none
        | none => none
    | none =>
      match lookupField mf "name" with
      | some w => if w.truthy then some w else none
      | none => none
  | _ => none

/-- app.py 19-59 (`get_models`): `.ok` is the returned list (its elements
are the raw identifier values), `.error` an exception escaping the
function — only `requests.exceptions.RequestException` is caught
(app.py 55), and it yields the plain empty list. -/
def get_models (provider : String) (resp : Transport) :
    Except PyErr (List Json) :=
  match resp with
  | .failure => .ok []
  | .success body =>
    if provider = "Ollama" then
      -- app.py 25: [m["name"] for m in response.json()["models"]]
      match pySubscript body "models" with
      | .error e => .error e
      | .ok ms =>
        match pyIter ms with
        | .error e => .error e
        | .ok items => items.mapM (fun m => pySubscript m "name")
    else
      match body with
      | .obj fields =>
        -- app.py 41-46: isinstance(data, dict) and "data" in data
        match lookupField fields "data" with
        | some d =>
          match pyIter d with
          | .error e => .error e
          | .ok items => .ok (items.filterMap data_entry_id)
        | none => .ok []
      | .arr items =>
        -- app.py 48-53: fallback, parse as list
        .ok (items.filterMap id_or_name)
      | _ => .ok []

/-- JSON insignificant whitespace. -/
def json_ws (c : Char) : Bool :=
  c = ' ' || c = '\t' || c = '\n' || c = '\r'

/-- Drop leading JSON whitespace. -/
def skip_ws (cs : List Char) : List Char :=
  cs.dropWhile json_ws

/-- Consume an expected literal tail (`rue`, `alse`, `ull`). -/
def parse_lit : List Char → List Char → Option (List Char)
  | [], cs => some cs
  | l :: ls, c :: cs => if c = l then parse_lit ls cs else none
  | _ :: _, [] => none

/-- Consume the body of a JSON string up to the closing quote
(escape sequences are not modelled: a backslash fails the parse). -/
def parse_string_chars : List Char → Option (String × List Char)
  | [] => none
  | c :: cs =>
    if c = '"' then some ("", cs)
    else if c = '\\' then none
    else
      match parse_string_chars cs with
      | some (s, rest) => some (⟨c :: s.data⟩, rest)
      | none => none

/-- Split off a leading run of decimal digits. -/
def parse_digits : List Char → List Char × List Char
  | [] => ([], [])
  | c :: cs =>
    if c.isDigit then
      match parse_digits cs with
      | (ds, r) => (c :: ds, r)
    else ([], c :: cs)

/-- Value of a run of decimal digits. -/
def digits_to_nat (ds : List Char) : ℕ :=
  ds.foldl (fun acc c => acc * 10 + (c.toNat - Char.toNat (Char.ofNat 48))) 0

mutual

/-- One JSON value and the remaining input; `fuel` bounds nesting depth. -/
def parse_value : ℕ → List Char → Option (Json × List Char)
  | 0, _ => none
  | fuel + 1, cs =>
    match skip_ws cs with
    | [] => none
    | c :: rest =>
      if c = '{' then parse_object_rest fuel rest
      else if c = '[' then parse_array_rest fuel rest
      else if c = '"' then
        match parse_string_chars rest with
        | some (s, r) => some (.str s, r)
        | none => none
      else if c = 't' then
        (parse_lit [ 'r', 'u', 'e'] rest).map (fun r => (.bool true, r))
      else if c = 'f' then
        (parse_lit [ 'a', 'l', 's', 'e'] rest).map (fun r => (.bool false, r))
      else if c = 'n' then
        (parse_lit [ 'u', 'l', 'l'] rest).map (fun r => (.null, r))
      else if c = '-' then
        match parse_digits rest with
        | ([], _) => none
        | (ds, r) => some (.num (-(digits_to_nat ds : ℤ)), r)
      else if c.isDigit then
        match parse_digits (c :: rest) with
        | (ds, r) => some (.num (digits_to_nat ds : ℤ), r)
      else none

/-- Array items after the opening bracket. -/
def parse_array_rest : ℕ → List Char → Option (Json × List Char)
  | 0, _ => none
  | fuel + 1, cs =>
    match skip_ws cs with
    | ']' :: r => some (.arr [], r)
    | cs1 =>
      match parse_value fuel cs1 with
      | none => none
      | some (v, r) =>
        match skip_ws r with
        | ']' :: r2 => some (.arr [v], r2)
        | ',' :: r2 =>
          match parse_array_rest fuel r2 with
          | some (.arr vs, r3) => some (.arr (v :: vs), r3)
          | _ => none
        | _ => none

/-- Object fields after the opening brace. -/
def parse_object_rest : ℕ → List Char → Option (Json × List Char)
  | 0, _ => none
  | fuel + 1, cs =>
    match skip_ws cs with
    | '}' :: r => some (.obj [], r)
    | '"' :: r =>
      match parse_string_chars r with
      | none => none
      | some (k, r1) =>
        match skip_ws r1 with
        | ':' :: r2 =>
          match parse_value fuel r2 with
          | none => none
          | some (v, r3) =>
            match skip_ws r3 with
            | '}' :: r4 => some (.obj [(k, v)], r4)
            | ',' :: r4 =>
              match parse_object_rest fuel r4 with
              | some (.obj fs, r5) => some (.obj ((k, v) :: fs), r5)
              | _ => none
            | _ => none
        | _ => none
    | _ => none

end

/-- Model of Python's `json.loads` over the payload subset the modelled
endpoints emit (objects, arrays, escape-free strings, integers, literals);
`none` models `json.JSONDecodeError`. -/
def json_loads (s : String) : Option Json :=
  match parse_value (s.length + 1) s.data with
  | some (v, rest) => if skip_ws rest = [] then some v else none
  | none => none

/-- app.py 117-123: per raw stream line, `none` when the line is empty
(skipped by `if not raw: continue`), else the extracted `data` payload —
the `"data: "` prefix removed when present, the result stripped. -/
def sse_data_of_line (raw : String) : Option String :=
  if raw = "" then none
  else if "data: ".data.isPrefixOf raw.data then some (py_strip ⟨raw.data.drop 6⟩)
  else some (py_strip raw)

/-- app.py 128-130: `event.get("choices", [{}])[0].get("delta", {}).get("content")`
followed by the `if content:` truthiness test.  `.ok (some c)` means the
fragment `c` is yielded, `.ok none` that nothing is yielded for this event,
`.error` an uncaught Python exception on a schema-mismatched payload
(only `json.JSONDecodeError` is caught by the loop, app.py 132). -/
def sse_extract (event : Json) : Except PyErr (Option Json) :=
  match event with
  | .obj fields =>
    match (lookupField fields "choices").getD (.arr [.obj []]) with
    | .arr [] => .error .indexError
    | .arr (c :: _) =>
      match c with
      | .obj cf =>
        match (lookupField cf "delta").getD (.obj []) with
        | .obj df =>
          match lookupField df "content" with
          | none => .ok none
          | some v => .ok (if v.truthy then some v else none)
        | _ => .error .attributeError
      | _ => .error .attributeError
    | .str s => if s = "" then .error .indexError else .error .attributeError
    | .obj _ => .error (.keyError "0")
    | _ => .error .typeError
  | _ => .error .attributeError

/-- app.py 116-133: the SSE decoding loop over the reply's lines.
`.ok frags` is clean termination (end of lines or a `[DONE]` payload) with
the yielded fragments in order; `.error` models an uncaught exception
aborting the stream. -/
def sse_decode : List String → Except PyErr (List Json)
  | [] => .ok []
  | raw :: rest =>
    match sse_data_of_line raw with
    | none => sse_decode rest
    | some d =>
      if d = "[DONE]" then .ok []
      else
        match json_loads d with
        | none => sse_decode rest
        | some event =>
          match sse_extract event with
          | .error e => .error e
          | .ok none => sse_decode rest
          | .ok (some c) => (sse_decode rest).map (fun l => c :: l)

lemma alternating_append (messages : List Message)
    (halt : Alternating messages)
    (m : Message)
    (hm : m.role = if messages.length % 2 = 0 then "Agent 1" else "Agent 2") :
    Alternating (messages ++ [m]) := by
  intro i h
  rcases lt_or_ge i messages.length with hi | hi
  · have := halt i hi
    rw [List.get_eq_getElem, List.getElem_append_left hi]
    exact this
  · have hlen : i < messages.length + 1 := by
      simpa [List.length_append] using h
    have hieq : i = messages.length := le_antisymm (Nat.lt_succ_iff.mp hlen) hi
    subst hieq
    have hget : (messages ++ [m]).get ⟨messages.length, h⟩ = m := by
      simp
    rw [hget, hm]

lemma reachable_invariant (s : SessionState) (h : Reachable s) :
    1 ≤ s.messages.length ∧ Alternating s.messages := by
  induction h with
  | start s topic now ts =>
    refine ⟨by simp [startRun], ?_⟩
    intro i hi
    have h1 : i < 1 := by simpa [startRun] using hi
    obtain rfl : i = 0 := by omega
    simp [startRun]
  | stop s now _ ih =>
    simpa [stopRun] using ih
  | turn s turn_limit now ts agent1 agent2 frags stp _ hrun ih =>
    rcases ih with ⟨hlen, halt⟩
    unfold runTurn
    by_cases ht : timeout_fired turn_limit s.start_time now
    · simpa [ht] using ⟨hlen, halt⟩
    · simp only [ht, if_false]
      cases stp with
      | no =>
        by_cases he : String.join frags = "" ∨ py_strip (String.join frags) = ""
        · simpa [he] using ⟨hlen, halt⟩
        · refine ⟨?_, ?_⟩
          · simp [he, List.length_append]
          · simp only [he, if_false]
            refine alternating_append s.messages halt _ ?_
            by_cases hp : s.messages.length % 2 = 0 <;>
              simp [current_agent_name, hp]
      | before => simpa using ⟨hlen, halt⟩
      | after k => simpa using ⟨hlen, halt⟩

/-- C1: in every session state reachable from a run seeded by `Start`, the
history is non-empty, the message at index 0 is Agent 1's, entry `i` is
Agent 1's exactly when `i` is even (so the active agent for the next turn
is determined by `len(history) mod 2`: even length means Agent 1's turn,
odd length Agent 2's turn), and each entry is attributed to the opposite
agent of the previous entry. -/
theorem C1_alternation (s : SessionState) (h : Reachable s) :
    1 ≤ s.messages.length
    ∧ (∀ h0 : 0 < s.messages.length, (s.messages.get ⟨0, h0⟩).role = "Agent 1")
    ∧ (∀ i (hi : i < s.messages.length),
        (s.messages.get ⟨i, hi⟩).role = if i % 2 = 0 then "Agent 1" else "Agent 2")
    ∧ (current_agent_name s.messages =
        if s.messages.length % 2 = 0 then "Agent 1" else "Agent 2")
    ∧ (∀ i (hi : i + 1 < s.messages.length),
        (s.messages.get ⟨i + 1, hi⟩).role ≠
          (s.messages.get ⟨i, Nat.lt_of_succ_lt hi⟩).role) := by
  obtain ⟨hlen, halt⟩ := reachable_invariant s h
  refine ⟨hlen, ?_, halt, ?_, ?_⟩
  · intro h0
    simpa using halt 0 h0
  · unfold current_agent_name
    by_cases hp : s.messages.length % 2 = 0 <;> simp [hp]
  · intro i hi
    rw [halt (i + 1) hi, halt i (Nat.lt_of_succ_lt hi)]
    rcases Nat.even_or_odd i with he | ho
    · have h1 : i % 2 = 0 := Nat.even_iff.mp he
      have h2 : (i + 1) % 2 = 1 := by omega
      simp [h1, h2]
    · have h1 : i % 2 = 1 := Nat.odd_iff.mp ho
      have h2 : (i + 1) % 2 = 0 := by omega
      simp [h1, h2]

theorem C1_alternation_witness :
    current_agent_name
        (startRun ⟨[], false, 0, none⟩ "hello" 0 "00:00:00").messages = "Agent 2" := by
  have h := C1_alternation (startRun ⟨[], false, 0, none⟩ "hello" 0 "00:00:00")
    (Reachable.start ⟨[], false, 0, none⟩ "hello" 0 "00:00:00")
  have h4 := h.2.2.2.1
  simpa [startRun] using h4

/-- C2: for every history entry, the outbound list built by
`generate_response` has the same length as the history, relabels the final
entry's role as `"user"` and every other entry's role as `"assistant"`,
and keeps every entry's content unchanged. -/
theorem C2_relabel (messages : List Message) (i : ℕ) (m : Message)
    (h : messages[i]? = some m) :
    (model_messages messages).length = messages.length
    ∧ (model_messages messages)[i]? =
        some ((if i = messages.length - 1 then "user" else "assistant"), m.content) := by
  constructor
  · simp [model_messages]
  · simp [model_messages, List.getElem?_map, List.getElem?_enum, h]

theorem C2_relabel_witness :
    (model_messages [⟨"Agent 1", "t", "0"⟩, ⟨"Agent 2", "r", "1"⟩]).length = 2
    ∧ (model_messages [⟨"Agent 1", "t", "0"⟩, ⟨"Agent 2", "r", "1"⟩])[1]? =
        some ("user", "r") := by
  have h := C2_relabel [⟨"Agent 1", "t", "0"⟩, ⟨"Agent 2", "r", "1"⟩] 1
    ⟨"Agent 2", "r", "1"⟩ (by decide)
  simpa using h

/-- C3: when the external stop request is observed during a turn (before
the call or after any fragment), the turn mutates no history — the message
list is exactly what it was before the turn began — and the engine is idle
(`running = false`) afterwards; the partial response is discarded. -/
theorem C3_stop_discards (s : SessionState) (turn_limit : ℕ) (now : ℚ)
    (ts agent1 agent2 : String) (frags : List String) (stop : Stop)
    (hstop : stop ≠ Stop.no) :
    (runTurn s turn_limit now ts agent1 agent2 frags stop).1.messages = s.messages
    ∧ (runTurn s turn_limit now ts agent1 agent2 frags stop).1.running = false := by
  unfold runTurn
  by_cases ht : timeout_fired turn_limit s.start_time now
  · simp [ht]
  · cases stop with
    | no => exact absurd rfl hstop
    | before => simp [ht]
    | after k => simp [ht]

theorem C3_stop_discards_witness :
    (runTurn ⟨[⟨"Agent 1", "t", "0"⟩], true, 0, none⟩ 0 5 "ts" "a" "b"
        ["par", "tial"] (Stop.after 0)).1.messages = [⟨"Agent 1", "t", "0"⟩]
    ∧ (runTurn ⟨[⟨"Agent 1", "t", "0"⟩], true, 0, none⟩ 0 5 "ts" "a" "b"
        ["par", "tial"] (Stop.after 0)).1.running = false :=
  C3_stop_discards ⟨[⟨"Agent 1", "t", "0"⟩], true, 0, none⟩ 0 5 "ts" "a" "b"
    ["par", "tial"] (Stop.after 0) (by decide)

/-- C4: when the stream completes (no stop, no timeout) and the accumulated
response is empty or all-whitespace, the run halts (`running = false`),
history is unchanged, and the emitted user-visible error names the
offending agent and its model. -/
theorem C4_empty_response (s : SessionState) (turn_limit : ℕ) (now : ℚ)
    (ts agent1 agent2 : String) (frags : List String)
    (hnt : ¬ timeout_fired turn_limit s.start_time now)
    (hempty : py_strip (String.join frags) = "") :
    (runTurn s turn_limit now ts agent1 agent2 frags Stop.no).1.running = false
    ∧ (runTurn s turn_limit now ts agent1 agent2 frags Stop.no).1.messages = s.messages
    ∧ (runTurn s turn_limit now ts agent1 agent2 frags Stop.no).2 =
        [current_agent_name s.messages ++ " ("
          ++ current_agent_model s.messages agent1 agent2
          ++ ") failed to generate a response. The conversation has been stopped."] := by
  unfold runTurn
  have hcond : String.join frags = "" ∨ py_strip (String.join frags) = "" := Or.inr hempty
  simp [hnt, hcond, empty_response_error]

theorem C4_empty_response_witness :
    (runTurn ⟨[⟨"Agent 1", "t", "0"⟩], true, 0, none⟩ 0 5 "ts" "m1" "m2"
        ["  ", "\t"] Stop.no).1.running = false
    ∧ (runTurn ⟨[⟨"Agent 1", "t", "0"⟩], true, 0, none⟩ 0 5 "ts" "m1" "m2"
        ["  ", "\t"] Stop.no).1.messages = [⟨"Agent 1", "t", "0"⟩]
    ∧ (runTurn ⟨[⟨"Agent 1", "t", "0"⟩], true, 0, none⟩ 0 5 "ts" "m1" "m2"
        ["  ", "\t"] Stop.no).2 =
        ["Agent 2 (m2) failed to generate a response. The conversation has been stopped."] := by
  have h := C4_empty_response ⟨[⟨"Agent 1", "t", "0"⟩], true, 0, none⟩ 0 5 "ts"
    "m1" "m2" ["  ", "\t"] (by simp [timeout_fired]) (by decide)
  simpa [current_agent_name, current_agent_model] using h

/-- C7: a turn limit of 0 never fires the timeout; a positive turn limit
fires exactly when the wall-clock time elapsed since the run's start
instant exceeds `turn_limit * 60` seconds; and a fired timeout leaves the
history as-is while halting the run. -/
theorem C7_turn_limit (turn_limit : ℕ) (start_time now : ℚ)
    (s : SessionState) (ts agent1 agent2 : String) (frags : List String)
    (stop : Stop) :
    (¬ timeout_fired 0 start_time now)
    ∧ (0 < turn_limit →
        (timeout_fired turn_limit start_time now ↔
          (turn_limit : ℚ) * 60 < now - start_time))
    ∧ (timeout_fired turn_limit s.start_time now →
        (runTurn s turn_limit now ts agent1 agent2 frags stop).1.messages = s.messages
        ∧ (runTurn s turn_limit now ts agent1 agent2 frags stop).1.running = false) := by
  refine ⟨?_, ?_, ?_⟩
  · intro hf
    exact absurd hf.1 (by omega)
  · intro hpos
    exact ⟨fun hf => hf.2, fun he => ⟨hpos, he⟩⟩
  · intro hf
    unfold runTurn
    simp [hf]

theorem C7_turn_limit_witness :
    (¬ timeout_fired 0 0 100)
    ∧ (timeout_fired 1 0 100 ↔ (1 : ℚ) * 60 < 100 - 0)
    ∧ ((runTurn ⟨[⟨"Agent 1", "t", "0"⟩], true, 0, none⟩ 1 100 "ts" "a" "b"
          ["x"] Stop.no).1.messages = [⟨"Agent 1", "t", "0"⟩]) := by
  have h := C7_turn_limit 1 0 100 ⟨[⟨"Agent 1", "t", "0"⟩], true, 0, none⟩
    "ts" "a" "b" ["x"] Stop.no
  refine ⟨h.1, h.2.1 (by omega), ?_⟩
  have hf : timeout_fired 1 0 100 := by
    constructor
    · omega
    · norm_num
  exact (h.2.2 hf).1

/-- C9: every `Start` press — a fresh run or a restart after a stop, from
any prior state — replaces the history wholesale by exactly one message
attributed to Agent 1 whose content is the topic verbatim, and records the
run's start instant (and sets the run flag, clearing the finish instant). -/
theorem C9_start_reseeds (s : SessionState) (topic : String) (now : ℚ)
    (ts : String) :
    (startRun s topic now ts).messages =
      [{ role := "Agent 1", content := topic, timestamp := ts }]
    ∧ (startRun s topic now ts).messages.length = 1
    ∧ (startRun s topic now ts).start_time = now
    ∧ (startRun s topic now ts).running = true
    ∧ (startRun s topic now ts).finish_time = none := by
  refine ⟨rfl, rfl, rfl, rfl, rfl⟩

/-- C6: SSE decoding yields the first choice's `delta.content` of each JSON
payload when present and truthy, a literal `[DONE]` payload terminates the
stream cleanly, a payload that fails JSON parsing is skipped (logged) and
never fatal, and the concrete body
`data: \x7b"choices":[\x7b"delta":\x7b"content":"hi"\x7d\x7d]\x7d`,
blank line, `data: [DONE]`, blank line yields exactly the fragment `"hi"`
and then terminates without error. -/
theorem C6_sse_decoding (raw : String) (rest : List String) (d : String)
    (hd : sse_data_of_line raw = some d) :
    (sse_decode
        ["data: \x7b\"choices\":[\x7b\"delta\":\x7b\"content\":\"hi\"\x7d\x7d]\x7d",
         "", "data: [DONE]", ""] = .ok [.str "hi"])
    ∧ (d = "[DONE]" → sse_decode (raw :: rest) = .ok [])
    ∧ (d ≠ "[DONE]" → json_loads d = none →
        sse_decode (raw :: rest) = sse_decode rest)
    ∧ (∀ event c, d ≠ "[DONE]" → json_loads d = some event →
        sse_extract event = .ok (some c) →
        sse_decode (raw :: rest) = (sse_decode rest).map (fun l => c :: l)) := by
  refine ⟨rfl, ?_, ?_, ?_⟩
  · intro hdone
    simp [sse_decode, hd, hdone]
  · intro hne hparse
    simp [sse_decode, hd, hne, hparse]
  · intro event c hne hparse hext
    simp [sse_decode, hd, hne, hparse, hext]

theorem C6_sse_decoding_witness :
    sse_decode ["data: [DONE]"] = .ok []
    ∧ sse_decode
        ["data: \x7b\"choices\":[\x7b\"delta\":\x7b\"content\":\"hi\"\x7d\x7d]\x7d",
         "", "data: [DONE]", ""] = .ok [.str "hi"] := by
  have h := C6_sse_decoding "data: [DONE]" [] "[DONE]" rfl
  exact ⟨h.2.1 rfl, h.1⟩

/-- C8: model-directory normalization.  The SSE-provider shape
`\x7b"data":[\x7b"id":"m1"\x7d,\x7b"id":"m2"\x7d]\x7d` maps to
`["m1","m2"]`; the line-protocol shape
`\x7b"models":[\x7b"name":"a"\x7d,\x7b"name":"b"\x7d]\x7d` maps to
`["a","b"]`; a bare list of objects with `id` or `name` maps to the flat
list, in source order, dropping entries without a usable identifier; and
generically both SSE shapes are order-preserving `filterMap`s of their
per-entry extractors. -/
theorem C8_model_normalization (entries : List Json) :
    get_models "OpenAI" (.success (.obj [("data",
        .arr [.obj [("id", .str "m1")], .obj [("id", .str "m2")]])]))
      = .ok [.str "m1", .str "m2"]
    ∧ get_models "Ollama" (.success (.obj [("models",
        .arr [.obj [("name", .str "a")], .obj [("name", .str "b")]])]))
      = .ok [.str "a", .str "b"]
    ∧ get_models "OpenAI" (.success (.arr
        [.obj [("id", .str "m1")], .obj [], .str "x", .obj [("id", .str "")],
         .obj [("name", .str "b")]]))
      = .ok [.str "m1", .str "b"]
    ∧ get_models "OpenAI" (.success (.obj [("data", .arr entries)]))
      = .ok (entries.filterMap data_entry_id)
    ∧ get_models "OpenAI" (.success (.arr entries))
      = .ok (entries.filterMap id_or_name) :=
  ⟨rfl, rfl, rfl, rfl, rfl⟩

/-- C5 counterexample: on a transport failure `get_models` returns the bare
empty list, which is exactly what a successful listing with zero models
returns — the caller observes no distinguishable `DirectoryUnavailable`
signal, contrary to the claim. -/
theorem C5_counterexample :
    get_models "Ollama" .failure
      = get_models "Ollama" (.success (.obj [("models", .arr [])]))
    ∧ get_models "Ollama" .failure = .ok [] :=
  ⟨rfl, rfl⟩

/-- C5 (amended): for every transport failure during model listing
(connection refused, timeout, non-2xx status — any
`requests.exceptions.RequestException`), `get_models` returns the empty
list and does not raise past its boundary; the failure is only logged, so
the caller receives no error signal distinguishable from a successful
empty listing. -/
theorem C5_amended (provider : String) :
    get_models provider .failure = .ok [] :=
  rfl

/-- C10: a 2xx line-protocol (Ollama) listing reply without a `models` key,
or whose `models` list has an entry without a `name` field, makes
`get_models` raise an uncaught `KeyError` past its boundary; only
requests-level transport failures are converted to the empty-list result. -/
theorem C10_ollama_uncaught_keyerror :
    get_models "Ollama" (.success (.obj [("foo", .null)]))
      = .error (.keyError "models")
    ∧ get_models "Ollama" (.success (.obj [("models",
        .arr [.obj [("id", .str "x")]])]))
      = .error (.keyError "name")
    ∧ get_models "Ollama" .failure = .ok [] :=
  ⟨rfl, rfl, rfl⟩
